import Mathlib

/-!
Verification development for the knowledge-base search engine
(`backend/rag_engine.py`, `backend/main.py`).

The Python core is shallowly embedded: pure helpers become Lean functions,
the ChromaDB collection becomes an explicit list-of-entries state, the
external services (sentence-transformer encoder, Chroma nearest-neighbour
ranking, Groq LLM, the filesystem) become an environment record of
functions, and every exception-raising path becomes an `Except`/`Option`
value.  Calls to the embedding model, the vector index and the LLM are
logged as events so that "does not invoke the provider" claims are
expressible.
-/

set_option autoImplicit false
set_option maxRecDepth 10000

namespace RAG

/-! ### Python string primitives used by `chunk_text` -/

/-- Helper for `pySplit`: walk the character list, accumulating the current
word (reversed) in `acc`; a whitespace character closes the word if one is
open.  Models CPython `str.split()` with no separator argument. -/
def splitWordsAux : List Char → List Char → List String
  | [], acc => if acc = [] then [] else [String.mk acc.reverse]
  | c :: cs, acc =>
    if c.isWhitespace then
      if acc = [] then splitWordsAux cs []
      else String.mk acc.reverse :: splitWordsAux cs []
    else splitWordsAux cs (c :: acc)

/-- Python `text.split()`: split on runs of whitespace, no empty words. -/
def pySplit (text : String) : List String :=
  splitWordsAux text.data []

/-- Python `sep.join(ws)`. -/
def pyJoin (sep : String) : List String → String
  | [] => ""
  | [w] => w
  | w :: ws => w ++ sep ++ pyJoin sep ws

/-- Python `range(start, stop, step)` for a positive `step`, fuel-bounded.
`fuel = stop + 1` suffices for `start = 0` and `step ≥ 1`. -/
def pyRangePos (start stop step : Nat) : Nat → List Nat
  | 0 => []
  | fuel + 1 => if start < stop then start :: pyRangePos (start + step) stop step fuel else []

/-! ### `RAGEngine.chunk_text`

```python
def chunk_text(self, text, chunk_size=500, overlap=50):
    words = text.split()
    chunks = []
    for i in range(0, len(words), chunk_size - overlap):
        chunk = ' '.join(words[i:i + chunk_size])
        if chunk:
            chunks.append(chunk)
    return chunks
```

In Python the loop step `chunk_size - overlap` is an `int`: when it is
zero, `range` raises `ValueError("range() arg 3 must not be zero")`; when
it is negative, `range(0, n, step)` is empty for every `n ≥ 0`, so the
loop body never runs.  The parameters are modelled as `Nat` (the program
only ever supplies non-negative ones) and the raisable call as `Except`. -/

/-- The loop body of `chunk_text` on an already-split word list. -/
def chunk_words (words : List String) (chunk_size overlap : Nat) : Except String (List String) :=
  if chunk_size ≤ overlap then
    if chunk_size = overlap then
      Except.error "range() arg 3 must not be zero"
    else
      Except.ok []
  else
    Except.ok (((pyRangePos 0 words.length (chunk_size - overlap) (words.length + 1)).map
      (fun i => pyJoin " " ((words.drop i).take chunk_size))).filter (fun c => c ≠ ""))

/-- `RAGEngine.chunk_text` (defaults `chunk_size=500`, `overlap=50`). -/
def chunk_text (text : String) (chunk_size overlap : Nat) : Except String (List String) :=
  chunk_words (pySplit text) chunk_size overlap

/-! ### Reference chunker, written from the claim's own words

"split text into whitespace-delimited words, then take windows of
`chunk_size` words starting at word indices `0, chunk_size - overlap,
2*(chunk_size - overlap), ...` while the start index is strictly less
than the word count, join each window's words with single spaces, and
drop any empty chunk." -/

/-- Successive `chunk_size`-word windows, each start `step` words after
the previous, stopping when the remaining word list is empty (i.e. the
start index reached the word count).  Fuel-bounded; for `step ≥ 1`,
`fuel = length + 1` is enough. -/
def refWindows (chunk_size step : Nat) : Nat → List String → List (List String)
  | 0, _ => []
  | fuel + 1, ws => if ws.isEmpty then [] else ws.take chunk_size :: refWindows chunk_size step fuel (ws.drop step)

/-- The claim's reference chunking. -/
def chunk_ref (text : String) (chunk_size overlap : Nat) : List String :=
  let words := pySplit text
  ((refWindows chunk_size (chunk_size - overlap) (words.length + 1) words).map (pyJoin " ")).filter (fun c => c ≠ "")

/-- 451 one-letter words, joined by single spaces: a document of 451 words. -/
def text451 : String := pyJoin " " (List.replicate 451 "z")

/-- 500 one-letter words, joined by single spaces: a document of 500 words. -/
def text500 : String := pyJoin " " (List.replicate 500 "z")

/-! ### Basic lemmas about the string primitives -/

theorem data_ne_nil_imp_ne_empty (s : String) (h : s.data ≠ []) : s ≠ "" :=
  fun he => h (by rw [he])

theorem mem_splitWordsAux_ne_empty :
    ∀ (cs acc : List Char), ∀ w ∈ splitWordsAux cs acc, w ≠ "" := by
  intro cs
  induction cs with
  | nil =>
    intro acc w hw
    by_cases hacc : acc = []
    · simp [splitWordsAux, hacc] at hw
    · simp only [splitWordsAux, if_neg hacc, List.mem_singleton] at hw
      subst hw
      exact data_ne_nil_imp_ne_empty _ (by simpa [List.reverse_eq_nil_iff] using hacc)
  | cons c cs ih =>
    intro acc w hw
    by_cases hws : c.isWhitespace
    · by_cases hacc : acc = []
      · simp only [splitWordsAux, if_pos hws, if_pos hacc] at hw
        exact ih [] w hw
      · simp only [splitWordsAux, if_pos hws, if_neg hacc, List.mem_cons] at hw
        rcases hw with rfl | hw
        · exact data_ne_nil_imp_ne_empty _ (by simpa [List.reverse_eq_nil_iff] using hacc)
        · exact ih [] w hw
    · simp only [splitWordsAux, if_neg hws] at hw
      exact ih (c :: acc) w hw

theorem mem_pySplit_ne_empty (text : String) : ∀ w ∈ pySplit text, w ≠ "" :=
  mem_splitWordsAux_ne_empty text.data []

theorem pyJoin_cons_ne_empty (sep w : String) (ws : List String) (hw : w ≠ "") :
    pyJoin sep (w :: ws) ≠ "" := by
  cases ws with
  | nil => exact hw
  | cons x xs =>
    apply data_ne_nil_imp_ne_empty
    simp only [pyJoin, String.data_append]
    intro h
    rcases List.append_eq_nil.mp (List.append_eq_nil.mp h).1 with ⟨hd, -⟩
    exact hw (String.ext (by simpa using hd))

theorem pyRangePos_of_stop_le (start stop step fuel : Nat) (h : stop ≤ start) :
    pyRangePos start stop step fuel = [] := by
  cases fuel with
  | zero => rfl
  | succ fuel => simp [pyRangePos, Nat.not_lt.mpr h]

/-! ### C1: the loop of `chunk_text` computes the claim's reference windows -/

theorem pyRangePos_map_eq_refWindows (ws : List String) (cs st : Nat) :
    ∀ (fuel start : Nat),
      (pyRangePos start ws.length st fuel).map (fun i => (ws.drop i).take cs)
        = refWindows cs st fuel (ws.drop start) := by
  intro fuel
  induction fuel with
  | zero => intro start; rfl
  | succ fuel ih =>
    intro start
    by_cases h : start < ws.length
    · have hne : (ws.drop start).isEmpty = false := by
        rw [List.isEmpty_eq_false_iff_exists_mem]
        have hlen : 0 < (ws.drop start).length := by
          rw [List.length_drop]; omega
        exact ⟨_, List.get_mem _ 0 hlen⟩
      rw [pyRangePos, if_pos h, List.map_cons, refWindows, hne]
      simp only [Bool.false_eq_true, if_false]
      rw [ih (start + st), List.drop_drop]
    · rw [pyRangePos, if_neg h, refWindows,
        List.drop_eq_nil_of_le (Nat.not_lt.mp h)]
      rfl

/-- C1: for `0 ≤ overlap < chunk_size`, `chunk_text` agrees with the
reference definition: whitespace-split words, windows of `chunk_size`
words at start indices `0, s, 2s, ...` (`s = chunk_size - overlap`) while
the start index is below the word count, each window joined by single
spaces, empty chunks dropped. -/
theorem chunk_text_eq_ref (text : String) (chunk_size overlap : Nat)
    (h : overlap < chunk_size) :
    chunk_text text chunk_size overlap = Except.ok (chunk_ref text chunk_size overlap) := by
  unfold chunk_text chunk_words chunk_ref
  rw [if_neg (Nat.not_le.mpr h)]
  have hmap :
      ((pyRangePos 0 (pySplit text).length (chunk_size - overlap) ((pySplit text).length + 1)).map
          (fun i => ((pySplit text).drop i).take chunk_size)).map (pyJoin " ")
        = (refWindows chunk_size (chunk_size - overlap) ((pySplit text).length + 1)
            ((pySplit text).drop 0)).map (pyJoin " ") := by
    rw [pyRangePos_map_eq_refWindows]
  rw [List.drop_zero] at hmap
  simp only [List.map_map] at hmap
  simp only []
  rw [← hmap]
  rfl

/-- Witness for C1 at `chunk_size = 3`, `overlap = 1`. -/
theorem chunk_text_eq_ref_witness :
    1 < 3 ∧ chunk_text "a b c d e" 3 1 = Except.ok (chunk_ref "a b c d e" 3 1) :=
  ⟨by decide, chunk_text_eq_ref "a b c d e" 3 1 (by decide)⟩

/-! ### C2: chunk counts under the default parameters

With `chunk_size=500, overlap=50` the loop advances by 450 words, so a
second window already appears at 451 words — strictly before the claimed
500-word boundary — and a 500-word document produces two chunks, not one;
a zero-word document produces zero chunks, not one. -/

/-- C2 counterexample: under the defaults, a 0-word document yields no
chunk (not one), a 451-word document (fewer than `chunk_size = 500`
words) yields two chunks (not one), and a 500-word document also yields
two chunks (not the claimed single chunk). -/
theorem chunk_text_default_one_chunk_cex :
    ((pySplit "").length < 500 ∧ chunk_text "" 500 50 = Except.ok [])
    ∧ ((pySplit text451).length < 500
        ∧ (chunk_text text451 500 50).toOption.map List.length = some 2)
    ∧ ((pySplit text500).length = 500
        ∧ (chunk_text text500 500 50).toOption.map List.length = some 2) := by
  exact ⟨⟨by decide, by rfl⟩, ⟨by decide, by decide⟩, ⟨by decide, by decide⟩⟩

/-- C2 amended: with the default parameters, a document of at least one
and at most 450 (= `chunk_size - overlap`) words yields exactly one
chunk, namely its words joined by single spaces; a document of exactly
500 words yields exactly two chunks: all 500 words, and the trailing
50-word window starting at word index 450. -/
theorem chunk_text_default_counts (text : String) :
    (1 ≤ (pySplit text).length → (pySplit text).length ≤ 450 →
      chunk_text text 500 50 = Except.ok [pyJoin " " (pySplit text)])
    ∧ ((pySplit text).length = 500 →
      chunk_text text 500 50 = Except.ok
        [pyJoin " " (pySplit text), pyJoin " " ((pySplit text).drop 450)]) := by
  constructor
  · intro h1 h450
    obtain ⟨w, rest, hws⟩ := List.exists_cons_of_ne_nil (List.length_pos.mp (show 0 < (pySplit text).length by omega))
    have hne : pyJoin " " (pySplit text) ≠ "" := by
      rw [hws]
      exact pyJoin_cons_ne_empty " " w rest
        (mem_pySplit_ne_empty text w (by rw [hws]; exact List.mem_cons_self w rest))
    unfold chunk_text chunk_words
    rw [if_neg (by omega : ¬ (500 ≤ 50))]
    have hidxs : pyRangePos 0 (pySplit text).length (500 - 50) ((pySplit text).length + 1)
        = [0] := by
      simp only [pyRangePos]
      rw [if_pos (show 0 < (pySplit text).length by omega),
        pyRangePos_of_stop_le (0 + (500 - 50)) (pySplit text).length (500 - 50)
          (pySplit text).length (by omega)]
    rw [hidxs]
    simp only [List.map_cons, List.map_nil, List.drop_zero]
    rw [List.take_of_length_le (show (pySplit text).length ≤ 500 by omega)]
    simp [hne]
  · intro h500
    obtain ⟨w, rest, hws⟩ := List.exists_cons_of_ne_nil (List.length_pos.mp (show 0 < (pySplit text).length by omega))
    have hne1 : pyJoin " " (pySplit text) ≠ "" := by
      rw [hws]
      exact pyJoin_cons_ne_empty " " w rest
        (mem_pySplit_ne_empty text w (by rw [hws]; exact List.mem_cons_self w rest))
    have hdropne : (pySplit text).drop 450 ≠ [] := by
      intro h
      have := congrArg List.length h
      rw [List.length_drop, h500] at this
      simp at this
    obtain ⟨w2, rest2, hws2⟩ := List.exists_cons_of_ne_nil hdropne
    have hw2 : w2 ≠ "" :=
      mem_pySplit_ne_empty text w2
        (List.mem_of_mem_drop (by rw [hws2]; exact List.mem_cons_self w2 rest2))
    have hne2 : pyJoin " " ((pySplit text).drop 450) ≠ "" := by
      rw [hws2]; exact pyJoin_cons_ne_empty " " w2 rest2 hw2
    unfold chunk_text chunk_words
    rw [if_neg (by omega : ¬ (500 ≤ 50))]
    have hidxs : pyRangePos 0 (pySplit text).length (500 - 50) ((pySplit text).length + 1)
        = [0, 450] := by
      rw [h500]
      decide
    rw [hidxs]
    simp only [List.map_cons, List.map_nil, List.drop_zero]
    rw [List.take_of_length_le (show (pySplit text).length ≤ 500 by omega),
      List.take_of_length_le
        (show ((pySplit text).drop 450).length ≤ 500 by rw [List.length_drop]; omega)]
    simp [hne1, hne2]

/-- Witness for the amendment of C2: a 2-word document gives a single
chunk, the 500-word document `text500` gives the two stated chunks. -/
theorem chunk_text_default_counts_witness :
    chunk_text "hello world" 500 50 = Except.ok [pyJoin " " (pySplit "hello world")]
    ∧ chunk_text text500 500 50 = Except.ok
        [pyJoin " " (pySplit text500), pyJoin " " ((pySplit text500).drop 450)] :=
  ⟨(chunk_text_default_counts "hello world").1 (by decide) (by decide),
   (chunk_text_default_counts text500).2 (by decide)⟩

/-! ### C3: there is no `overlap >= chunk_size` guard -/

/-- C3 counterexample: a call with `overlap = 3 > 2 = chunk_size` is not
rejected as a configuration error; it proceeds normally (the Python
`range` step is negative, so the loop body never runs) and returns an
ordinary empty chunk list. -/
theorem chunk_text_overlap_cex : chunk_text "a b c" 2 3 = Except.ok [] := by rfl

/-- C3 amended: `chunk_text` has no explicit parameter guard and no
`ChunkingConfigError` exists; `overlap > chunk_size` silently yields an
empty chunk list (negative `range` step, loop body never runs, still
terminating), while `overlap = chunk_size` raises the untyped
`ValueError` coming from `range` itself. -/
theorem chunk_text_no_overlap_guard (text : String) (chunk_size overlap : Nat) :
    (chunk_size < overlap → chunk_text text chunk_size overlap = Except.ok [])
    ∧ (chunk_size = overlap →
        chunk_text text chunk_size overlap = Except.error "range() arg 3 must not be zero") := by
  constructor
  · intro h
    unfold chunk_text chunk_words
    rw [if_pos (Nat.le_of_lt h), if_neg (Nat.ne_of_lt h)]
  · intro h
    unfold chunk_text chunk_words
    rw [if_pos (Nat.le_of_eq h), if_pos h]

/-- Witness for the amendment of C3 at `chunk_size = 2, overlap = 3` and
`chunk_size = overlap = 3`. -/
theorem chunk_text_no_overlap_guard_witness :
    chunk_text "x y" 2 3 = Except.ok []
    ∧ chunk_text "x y" 3 3 = Except.error "range() arg 3 must not be zero" :=
  ⟨(chunk_text_no_overlap_guard "x y" 2 3).1 (by decide),
   (chunk_text_no_overlap_guard "x y" 3 3).2 rfl⟩

/-! ### Model of the engine: collection state, external services, events

The ChromaDB collection becomes a list of entries; the external services
(sentence-transformer encoder, Chroma nearest-neighbour ranking, Groq
LLM, file reading, the fallible collection writes) become an environment
of functions, with `Except`/`Option` for the calls the Python code can
see raise.  Every call to the encoder, the index search or the LLM is
also reported as an event so that the "never invokes the provider"
claims are statements about the returned event list. -/

/-- A call to one of the external services. -/
inductive CallEvent where
  | encodeCall
  | searchCall
  | llmCall
deriving DecidableEq

/-- One ChromaDB index entry as written by `ingest_document`:
id, embedding, document text, and the metadata `{source, chunk_id}`. -/
structure Entry (Vec : Type) where
  id : String
  embedding : Vec
  document : String
  metaSource : String
  metaChunkIndex : Nat
deriving DecidableEq

/-- The collection state: the ordered list of stored entries. -/
structure StoreState (Vec : Type) where
  entries : List (Entry Vec)
deriving DecidableEq

/-- The external services consumed by `RAGEngine`, black boxes to the
core (spec sections 4.3, 4.4): `encode`/`encodeBatch` is the embedding
model, `rank` is Chroma's nearest-neighbour ordering of the stored
entries for a query embedding (paired with distance scores),
`llm` the Groq chat completion, `extractPdf`/`extractTxt` the document
readers, and the `...Outcome` fields decide whether the corresponding
collection write raises. -/
structure RAGEnv (Vec Score : Type) where
  encode : String → Vec
  encodeBatch : List String → Except String (List Vec)
  rank : List (Entry Vec) → Vec → List (Entry Vec × Score)
  llm : String → Except String String
  extractPdf : String → Except String String
  extractTxt : String → Except String String
  addOutcome : List (Entry Vec) → List (Entry Vec) → Option String
  deleteOutcome : Option String
  createOutcome : Option String

/-- One retrieved context record `{text, source, distance}`. -/
structure ContextChunk (Score : Type) where
  text : String
  source : String
  distance : Option Score
deriving DecidableEq

/-- The dictionary returned by `RAGEngine.query` / `generate_answer`
(keys absent from a given return are `none`). -/
structure QueryResult (Score : Type) where
  status : String
  answer : Option String := none
  sources : Option (List String) := none
  context_used : Option Nat := none
  message : Option String := none
  retrieved_chunks : Option (List (ContextChunk Score)) := none
deriving DecidableEq

/-- The pydantic `QueryResponse` model of `main.py`: it has no
`retrieved_chunks` field, and pydantic drops unknown keys. -/
structure QueryResponse where
  status : String
  answer : Option String := none
  sources : Option (List String) := none
  context_used : Option Nat := none
  message : Option String := none
deriving DecidableEq

/-- `QueryResponse(**result)`: keep the declared fields, drop the rest. -/
def QueryResult.toResponse {Score : Type} (r : QueryResult Score) : QueryResponse :=
  { status := r.status, answer := r.answer, sources := r.sources,
    context_used := r.context_used, message := r.message }

/-- The result dictionary of `RAGEngine.ingest_document`. -/
structure IngestResult where
  status : String
  document_name : Option String := none
  chunks_created : Option Nat := none
  message : Option String := none
deriving DecidableEq

/-- A `{status, message}` result (`clear_knowledge_base`). -/
structure ClearResult where
  status : String
  message : Option String := none
deriving DecidableEq

/-- The result dictionary of `RAGEngine.get_stats`. -/
structure StatsResult where
  status : String
  total_chunks : Option Nat := none
  collection_name : Option String := none
  message : Option String := none
deriving DecidableEq

/-! ### The engine operations -/

/-- `RAGEngine.retrieve_context`: embed the query (one-element batch),
ask the collection for the `top_k` nearest entries, and map them to
provenance-tagged records in ranking order.  Chroma returns the
`min(top_k, count)` nearest entries with their distances. -/
def retrieve_context {Vec Score : Type} (env : RAGEnv Vec Score) (st : StoreState Vec)
    (query : String) (top_k : Int) : List (ContextChunk Score) × List CallEvent :=
  let query_embedding := env.encode query
  let results := (env.rank st.entries query_embedding).take top_k.toNat
  (results.map (fun r => ⟨r.1.document, r.1.metaSource, some r.2⟩),
   [CallEvent.encodeCall, CallEvent.searchCall])

/-- The context block of `RAGEngine.generate_answer`: every chunk
prefixed by its source label, joined by blank lines. -/
def buildContext {Score : Type} (context_chunks : List (ContextChunk Score)) : String :=
  pyJoin "\n\n" (context_chunks.map (fun chunk => "[Source: " ++ chunk.source ++ "]\n" ++ chunk.text))

/-- The user prompt of `RAGEngine.generate_answer`. -/
def buildPrompt {Score : Type} (query : String) (context_chunks : List (ContextChunk Score)) : String :=
  "You are a helpful assistant that answers questions based on the provided context. \nUse the context below to answer the user's question. If the answer cannot be found in the context, say so.\n\nContext:\n"
    ++ buildContext context_chunks
    ++ "\n\nQuestion: " ++ query
    ++ "\n\nAnswer the question succinctly and cite the sources used."

/-- `RAGEngine.generate_answer`.  Python's `list(set(...))` enumerates
the deduplicated source names in an implementation-defined order; it is
modelled as `List.dedup`, and the theorems about it use only the
underlying set and duplicate-freeness, which hold for any enumeration
order. -/
def generate_answer {Vec Score : Type} (env : RAGEnv Vec Score) (query : String)
    (context_chunks : List (ContextChunk Score)) : QueryResult Score × List CallEvent :=
  match env.llm (buildPrompt query context_chunks) with
  | Except.ok answer =>
    ({ status := "success", answer := some answer,
       sources := some ((context_chunks.map (fun c => c.source)).dedup),
       context_used := some context_chunks.length }, [CallEvent.llmCall])
  | Except.error e =>
    ({ status := "error", message := some ("Error generating answer: " ++ e) },
     [CallEvent.llmCall])

/-- `RAGEngine.query`: short-circuit on an empty collection, retrieve,
short-circuit on empty context, else generate and attach the raw
retrieved context under `retrieved_chunks`. -/
def query {Vec Score : Type} (env : RAGEnv Vec Score) (st : StoreState Vec)
    (question : String) (top_k : Int) : QueryResult Score × List CallEvent :=
  if st.entries.length = 0 then
    ({ status := "error",
       message := some "No documents in knowledge base. Please upload documents first." }, [])
  else
    let r1 := retrieve_context env st question top_k
    if r1.1.isEmpty then
      ({ status := "error",
         message := some "No relevant information found in the knowledge base." }, r1.2)
    else
      let r2 := generate_answer env question r1.1
      ({ r2.1 with retrieved_chunks := some r1.1 }, r1.2 ++ r2.2)

/-- Python `str.lower()` (ASCII part, which is all the suffixes use). -/
def pyLower (s : String) : String := String.mk (s.data.map Char.toLower)

/-- The extraction step of `ingest_document`: dispatch on the lowered
file suffix, raising `ValueError` for anything but `.pdf`/`.txt`. -/
def extract_text {Vec Score : Type} (env : RAGEnv Vec Score)
    (file_path suffix : String) : Except String String :=
  if pyLower suffix = ".pdf" then env.extractPdf file_path
  else if pyLower suffix = ".txt" then env.extractTxt file_path
  else Except.error ("Unsupported file type: " ++ suffix)

/-- The id/metadata batch built by `ingest_document`: ids
`{document_name}_chunk_{i}` and metadata `{source, chunk_id}` aligned
with the chunks and their embeddings. -/
def mkEntries {Vec : Type} (document_name : String) (chunks : List String)
    (embeddings : List Vec) : List (Entry Vec) :=
  (chunks.zip embeddings).enum.map (fun p =>
    { id := document_name ++ "_chunk_" ++ toString p.1
      embedding := p.2.2
      document := p.2.1
      metaSource := document_name
      metaChunkIndex := p.1 })

/-- `RAGEngine.ingest_document`: extract, chunk with the defaults, embed
all chunks, then store the whole batch with a single `collection.add`;
the surrounding `try/except` turns any raised error into a
`{status:"error", message}` result.  The black-box `add` is atomic per
its contract (spec section 4.4): it either appends the whole batch or
fails leaving the collection unchanged; `env.addOutcome` decides which. -/
def ingest_document {Vec Score : Type} (env : RAGEnv Vec Score) (st : StoreState Vec)
    (file_path suffix document_name : String) : IngestResult × StoreState Vec :=
  match extract_text env file_path suffix with
  | Except.error e => ({ status := "error", message := some e }, st)
  | Except.ok text =>
    match chunk_text text 500 50 with
    | Except.error e => ({ status := "error", message := some e }, st)
    | Except.ok chunks =>
      match env.encodeBatch chunks with
      | Except.error e => ({ status := "error", message := some e }, st)
      | Except.ok embeddings =>
        match env.addOutcome st.entries (mkEntries document_name chunks embeddings) with
        | some e => ({ status := "error", message := some e }, st)
        | none =>
          ({ status := "success", document_name := some document_name,
             chunks_created := some chunks.length,
             message := some ("Successfully ingested " ++ document_name) },
           ⟨st.entries ++ mkEntries document_name chunks embeddings⟩)

/-- `RAGEngine.get_stats` (the `count()` call itself is not fallible in
the model). -/
def get_stats {Vec : Type} (st : StoreState Vec) : StatsResult :=
  { status := "success", total_chunks := some st.entries.length,
    collection_name := some "knowledge_base" }

/-- `RAGEngine.clear_knowledge_base`: `delete_collection` then
`create_collection`, each fallible, wrapped in `try/except`.  When the
delete succeeded, the old entries are gone even if the recreate then
raises. -/
def clear_knowledge_base {Vec Score : Type} (env : RAGEnv Vec Score) (st : StoreState Vec) :
    ClearResult × StoreState Vec :=
  match env.deleteOutcome with
  | some e => ({ status := "error", message := some e }, st)
  | none =>
    match env.createOutcome with
    | some e => ({ status := "error", message := some e }, ⟨[]⟩)
    | none => ({ status := "success", message := some "Knowledge base cleared" }, ⟨[]⟩)

/-! ### The HTTP query entrypoint of `main.py` -/

/-- Python `str.strip()`. -/
def pyStrip (s : String) : String :=
  String.mk (((s.data.dropWhile Char.isWhitespace).reverse.dropWhile Char.isWhitespace).reverse)

/-- An HTTP error response raised by the FastAPI layer. -/
inductive ApiError where
  | http (statusCode : Nat) (detail : String)
deriving DecidableEq

/-- `main.query_knowledge_base` (`POST /query`).  The handler's own
`HTTPException(400, "Question cannot be empty")` for a blank question is
raised inside its `try` block, so its broad `except Exception` catches
it and re-raises it as a 500 whose detail wraps the stringified inner
exception (modelled by its detail text): a blank question yields an HTTP
error response, never a `{status:"error"}` body.  Otherwise the engine
result is returned through the `QueryResponse` model, which drops the
`retrieved_chunks` key. -/
def query_knowledge_base {Vec Score : Type} (env : RAGEnv Vec Score) (st : StoreState Vec)
    (question : String) (top_k : Int := 5) :
    Except ApiError QueryResponse × List CallEvent :=
  if pyStrip question = "" then
    (Except.error (ApiError.http 500 ("Query failed: " ++ "Question cannot be empty")), [])
  else
    let r := query env st question top_k
    (Except.ok r.1.toResponse, r.2)

/-! ### Concrete environments and states for witnesses -/

/-- A concrete environment (trivial embeddings and scores) in which
every service succeeds: ranking lists the stored entries in insertion
order and the LLM always answers `"the answer"`. -/
def envOk : RAGEnv Unit Unit :=
  { encode := fun _ => ()
    encodeBatch := fun chunks => Except.ok (chunks.map (fun _ => ()))
    rank := fun entries _ => entries.map (fun e => (e, ()))
    llm := fun _ => Except.ok "the answer"
    extractPdf := fun _ => Except.ok "parsed pdf text"
    extractTxt := fun _ => Except.ok "alpha beta gamma"
    addOutcome := fun _ _ => none
    deleteOutcome := none
    createOutcome := none }

/-- `envOk` with a failing LLM call. -/
def envLLMDown : RAGEnv Unit Unit :=
  { envOk with llm := fun _ => Except.error "boom" }

/-- `envOk` with unreadable files. -/
def envBadFile : RAGEnv Unit Unit :=
  { envOk with
    extractPdf := fun _ => Except.error "Error extracting PDF: bad bytes"
    extractTxt := fun _ => Except.error "Error reading text file: bad encoding" }

/-- A one-entry collection state. -/
def stOne : StoreState Unit :=
  ⟨[{ id := "doc.txt_chunk_0", embedding := (), document := "alpha beta",
      metaSource := "doc.txt", metaChunkIndex := 0 }]⟩

/-- The empty collection state. -/
def stEmpty : StoreState Unit := ⟨[]⟩

/-! ### C4: there is no whitespace-question guard in the core -/

/-- C4 counterexample: with one stored entry, the whitespace-only
question `" "` is not rejected by `RAGEngine.query`: the Embedding
Provider is invoked (an `encodeCall` event occurs) and the call answers
with `status = "success"`, not an error before touching the index. -/
theorem query_whitespace_cex :
    (" ").data.all Char.isWhitespace = true
    ∧ CallEvent.encodeCall ∈ (query envOk stOne " " 5).2
    ∧ (query envOk stOne " " 5).1.status = "success" :=
  ⟨by decide, by decide, by rfl⟩

/-- C4 amended: the core performs no validation of the question — with a
non-empty collection any question, whitespace-only included, is sent to
the encoder.  Only the HTTP handler checks for a blank question; it does
so before any service call, but it surfaces the rejection as a raised
HTTP error (its own broad `except` turns the 400 into a 500), not as a
`{status:"error"}` result, and no `InvalidQueryError` type exists. -/
theorem query_no_whitespace_guard (Vec Score : Type) (env : RAGEnv Vec Score)
    (st : StoreState Vec) (question : String) (top_k : Int) :
    (st.entries.length ≠ 0 → CallEvent.encodeCall ∈ (query env st question top_k).2)
    ∧ (pyStrip question = "" →
        query_knowledge_base env st question top_k
          = (Except.error (ApiError.http 500 ("Query failed: " ++ "Question cannot be empty")), [])) := by
  constructor
  · intro h
    simp only [query, if_neg h]
    split
    · simp [retrieve_context]
    · simp [retrieve_context]
  · intro h
    simp only [query_knowledge_base, if_pos h]

/-- Witness for the amendment of C4 at the whitespace question `"   "`. -/
theorem query_no_whitespace_guard_witness :
    CallEvent.encodeCall ∈ (query envOk stOne "   " 5).2
    ∧ query_knowledge_base envOk stOne "   " 5
        = (Except.error (ApiError.http 500 ("Query failed: " ++ "Question cannot be empty")), []) :=
  ⟨(query_no_whitespace_guard Unit Unit envOk stOne "   " 5).1 (by decide),
   (query_no_whitespace_guard Unit Unit envOk stOne "   " 5).2 (by rfl)⟩

/-! ### C5: the empty-collection short-circuit -/

/-- C5: when the collection count is zero, `query` returns the
"no documents" error result and the event list is empty: neither the
Embedding Provider nor the LLM is invoked. -/
theorem query_empty_kb (Vec Score : Type) (env : RAGEnv Vec Score)
    (st : StoreState Vec) (question : String) (top_k : Int)
    (h : st.entries.length = 0) :
    query env st question top_k
      = ({ status := "error",
           message := some "No documents in knowledge base. Please upload documents first." },
         []) := by
  simp only [query, if_pos h]

/-- Witness for C5 on the empty store. -/
theorem query_empty_kb_witness :
    query envOk stEmpty "hello" 5
      = ({ status := "error",
           message := some "No documents in knowledge base. Please upload documents first." },
         []) :=
  query_empty_kb Unit Unit envOk stEmpty "hello" 5 rfl

/-! ### C6: per-document ingestion is all-or-nothing -/

/-- C6: any failure of extraction, chunking, embedding or the index add
makes `ingest_document` return a structured `{status:"error", message}`
result and leave the store unchanged; on success the store is exactly
the old entries plus the whole batch for this document, built before the
single `add` call; and every outcome is one of these two shapes (no
uncaught exception escapes). -/
theorem ingest_document_atomic (Vec Score : Type) (env : RAGEnv Vec Score)
    (st : StoreState Vec) (file_path suffix document_name : String) :
    ((ingest_document env st file_path suffix document_name).1.status = "error" →
        (ingest_document env st file_path suffix document_name).2 = st
        ∧ ((ingest_document env st file_path suffix document_name).1.message).isSome = true)
    ∧ ((ingest_document env st file_path suffix document_name).1.status = "success" →
        ∃ chunks embeddings,
          (ingest_document env st file_path suffix document_name).2.entries
            = st.entries ++ mkEntries document_name chunks embeddings)
    ∧ ((ingest_document env st file_path suffix document_name).1.status = "success"
        ∨ (ingest_document env st file_path suffix document_name).1.status = "error") := by
  unfold ingest_document
  split
  · exact ⟨fun _ => ⟨rfl, rfl⟩,
      fun hs => absurd (show "error" = "success" from hs) (by decide), Or.inr rfl⟩
  · split
    · exact ⟨fun _ => ⟨rfl, rfl⟩,
        fun hs => absurd (show "error" = "success" from hs) (by decide), Or.inr rfl⟩
    · split
      · exact ⟨fun _ => ⟨rfl, rfl⟩,
          fun hs => absurd (show "error" = "success" from hs) (by decide), Or.inr rfl⟩
      · split
        · exact ⟨fun _ => ⟨rfl, rfl⟩,
            fun hs => absurd (show "error" = "success" from hs) (by decide), Or.inr rfl⟩
        · exact ⟨fun hs => absurd (show "success" = "error" from hs) (by decide),
            fun _ => ⟨_, _, rfl⟩, Or.inl rfl⟩

/-- Witness for C6: a failing extraction leaves the one-entry store
untouched and reports a message. -/
theorem ingest_document_atomic_witness :
    (ingest_document envBadFile stOne "f.txt" ".txt" "f.txt").2 = stOne
    ∧ ((ingest_document envBadFile stOne "f.txt" ".txt" "f.txt").1.message).isSome = true :=
  (ingest_document_atomic Unit Unit envBadFile stOne "f.txt" ".txt" "f.txt").1 (by rfl)

/-! ### C7: top_k is not validated -/

/-- C7 counterexample: `top_k = 100`, far outside the claimed range
`[1,10]`, is accepted by the query entrypoint: no rejection, no
`InvalidQueryError`, and the call answers normally. -/
theorem top_k_unvalidated_cex :
    (query_knowledge_base envOk stOne "what is alpha?" 100).1
      = Except.ok { status := "success", answer := some "the answer",
                    sources := some ["doc.txt"], context_used := some 1 } := by
  rfl

/-- C7 amended: the entrypoint's `top_k` is an optional integer
defaulting to 5 with no range validation: for any non-blank question,
every `top_k` value is forwarded unchanged to the engine (and hence to
the index query), and the engine result is passed back unmodified. -/
theorem top_k_passed_through (Vec Score : Type) (env : RAGEnv Vec Score)
    (st : StoreState Vec) (question : String) (top_k : Int)
    (h : pyStrip question ≠ "") :
    query_knowledge_base env st question top_k
      = (Except.ok (query env st question top_k).1.toResponse,
         (query env st question top_k).2) := by
  simp only [query_knowledge_base, if_neg h]

/-- Witness for the amendment of C7 at `top_k = 100`. -/
theorem top_k_passed_through_witness :
    query_knowledge_base envOk stOne "hi" 100
      = (Except.ok (query envOk stOne "hi" 100).1.toResponse,
         (query envOk stOne "hi" 100).2) :=
  top_k_passed_through Unit Unit envOk stOne "hi" 100 (by decide)

/-! ### C8: sources and context_used of a successful synthesis -/

/-- C8: when the LLM call succeeds, the `sources` field is the
deduplicated collection of the supplied chunks' source names —
duplicate-free and with exactly those names as members, i.e. the claim's
order-independent set — and `context_used` is the number of context
chunks supplied. -/
theorem generate_answer_sources (Vec Score : Type) (env : RAGEnv Vec Score)
    (question : String) (context_chunks : List (ContextChunk Score)) (a : String)
    (h : env.llm (buildPrompt question context_chunks) = Except.ok a) :
    (generate_answer env question context_chunks).1.sources
        = some ((context_chunks.map (fun c => c.source)).dedup)
    ∧ ((context_chunks.map (fun c => c.source)).dedup).Nodup
    ∧ (∀ s, s ∈ (context_chunks.map (fun c => c.source)).dedup
          ↔ s ∈ context_chunks.map (fun c => c.source))
    ∧ (generate_answer env question context_chunks).1.context_used
        = some context_chunks.length := by
  refine ⟨?_, List.nodup_dedup _, fun s => List.mem_dedup, ?_⟩ <;>
    simp only [generate_answer, h]

/-- Witness for C8: two chunks of the same document yield the single
deduplicated source name and `context_used = 2`. -/
theorem generate_answer_sources_witness :
    (generate_answer envOk "q" [⟨"t1", "doc1", none⟩, ⟨"t2", "doc1", none⟩]).1.sources
        = some ["doc1"]
    ∧ (generate_answer envOk "q" [⟨"t1", "doc1", none⟩, ⟨"t2", "doc1", none⟩]).1.context_used
        = some 2 := by
  have h := generate_answer_sources Unit Unit envOk "q"
    [⟨"t1", "doc1", none⟩, ⟨"t2", "doc1", none⟩] "the answer" rfl
  exact ⟨by rw [h.1]; decide, h.2.2.2⟩

/-! ### C9: a successful clear empties the collection -/

/-- C9: `clear_knowledge_base` drops and recreates the collection; once
it returns with `status = "success"` the store has zero entries
(`count() == 0`, as `get_stats` reports), and — for any nearest-neighbour
ranking that only returns stored entries — no retrieval from the cleared
store returns anything, so no prior entry is retrievable. -/
theorem clear_knowledge_base_clears (Vec Score : Type) (env : RAGEnv Vec Score)
    (st : StoreState Vec)
    (hrank : ∀ (entries : List (Entry Vec)) (v : Vec), ∀ p ∈ env.rank entries v, p.1 ∈ entries)
    (hsucc : (clear_knowledge_base env st).1.status = "success") :
    (clear_knowledge_base env st).2.entries = []
    ∧ (get_stats (clear_knowledge_base env st).2).total_chunks = some 0
    ∧ ∀ (question : String) (top_k : Int),
        (retrieve_context env (clear_knowledge_base env st).2 question top_k).1 = [] := by
  cases hdel : env.deleteOutcome with
  | some e =>
    unfold clear_knowledge_base at hsucc
    rw [hdel] at hsucc
    exact absurd (show "error" = "success" from hsucc) (by decide)
  | none =>
    cases hcre : env.createOutcome with
    | some e =>
      unfold clear_knowledge_base at hsucc
      rw [hdel, hcre] at hsucc
      exact absurd (show "error" = "success" from hsucc) (by decide)
    | none =>
      have hstate : (clear_knowledge_base env st).2 = ⟨[]⟩ := by
        unfold clear_knowledge_base
        rw [hdel, hcre]
      refine ⟨by rw [hstate], by rw [hstate]; rfl, ?_⟩
      intro question top_k
      have h0 : env.rank ([] : List (Entry Vec)) (env.encode question) = [] := by
        cases hq : env.rank ([] : List (Entry Vec)) (env.encode question) with
        | nil => rfl
        | cons p ps =>
          exact absurd
            (hrank [] (env.encode question) p (by rw [hq]; exact List.mem_cons_self p ps))
            (List.not_mem_nil p.1)
      rw [hstate]
      simp [retrieve_context, h0]

/-- Witness for C9: clearing the one-entry store under `envOk` leaves
nothing, and a subsequent retrieval finds nothing. -/
theorem clear_knowledge_base_clears_witness :
    (clear_knowledge_base envOk stOne).2.entries = []
    ∧ (retrieve_context envOk (clear_knowledge_base envOk stOne).2 "q" 5).1 = [] := by
  have h := clear_knowledge_base_clears Unit Unit envOk stOne
    (by
      intro entries v p hp
      simp only [envOk] at hp
      obtain ⟨e, he, rfl⟩ := List.mem_map.mp hp
      exact he)
    rfl
  exact ⟨h.1, h.2.2 "q" 5⟩

/-! ### C10: a failed LLM call still reports the retrieved context -/

/-- C10: against a non-empty store, when retrieval yields at least one
chunk but the LLM call fails, `query` returns `status = "error"` and the
result still carries the retrieved context under `retrieved_chunks`
(alongside the error `message`): the error result is not limited to
`{status, message}`. -/
theorem query_error_keeps_chunks (Vec Score : Type) (env : RAGEnv Vec Score)
    (st : StoreState Vec) (question : String) (top_k : Int) (e : String)
    (hne : st.entries.length ≠ 0)
    (hchunks : (retrieve_context env st question top_k).1.isEmpty = false)
    (hllm : env.llm (buildPrompt question (retrieve_context env st question top_k).1)
        = Except.error e) :
    (query env st question top_k).1.status = "error"
    ∧ (query env st question top_k).1.retrieved_chunks
        = some (retrieve_context env st question top_k).1
    ∧ (query env st question top_k).1.message
        = some ("Error generating answer: " ++ e) := by
  simp only [query, if_neg hne, hchunks, Bool.false_eq_true, if_false,
    generate_answer, hllm]
  exact ⟨trivial, trivial, trivial⟩


/-- Witness for C10: the one-entry store with the failing LLM. -/
theorem query_error_keeps_chunks_witness :
    (query envLLMDown stOne "q" 5).1.status = "error"
    ∧ (query envLLMDown stOne "q" 5).1.retrieved_chunks
        = some (retrieve_context envLLMDown stOne "q" 5).1
    ∧ (query envLLMDown stOne "q" 5).1.message
        = some ("Error generating answer: " ++ "boom") :=
  query_error_keeps_chunks Unit Unit envLLMDown stOne "q" 5 "boom"
    (by decide) (by rfl) (by rfl)

end RAG
